import Mathlib

/-!
# Finance-Frontend: CSV ingestion and analytics pipeline, shallow embedding

This file embeds the transaction-ingestion and analytics code of the
Finance-Frontend repository in Lean 4 and proves/refutes the claims of its
natural-language specification.

Embedded code:
* `server/routes.ts`, `POST /api/upload/csv` (lines 116-178): naive CSV split,
  per-row parsing with `parseFloat` / `new Date`, keyword auto-categorization,
  transaction assembly with `Math.abs`;
* `server/routes.ts`, `GET /api/analytics/summary` (281-324) and
  `GET /api/analytics/spending-by-category` (326-348);
* `server/storage.ts`, `MemStorage.updateTransaction` (182-188): partial
  merge by object spread;
* `client/src/pages/categories.tsx`, `monthlyTrends` (201-222).

Conventions of the embedding:
* JavaScript numbers are modelled as exact rationals (`ℚ`); every literal in
  the repository's data paths is a short decimal, where `ℚ` and IEEE doubles
  agree on the identities at issue.
* JavaScript strings are Lean `String`s; the JS operations used by the code
  (`split` on a one-character separator, `trim`, `toLowerCase`,
  `String.prototype.includes`) are redefined below on `List Char` so that
  every definition reduces in the kernel.
* `new Date(s)` is modelled on the ISO `YYYY-MM-DD` branch of the JS date
  parser (the only format the repository's own template and format guide
  use); a calendar-valid ISO string yields a `Date`, anything else `none`,
  matching `isNaN(date.getTime())`.
* Opaque generated fields (`id`, `createdAt`) are omitted: no embedded claim
  mentions them.
-/

/-! ## JS string primitives -/

/-- Characters of `s.split(sep)` for a one-character separator, accumulator
style; models `String.prototype.split` (which never drops empty fields). -/
def splitCharAux (sep : Char) : List Char → List Char → List String
  | [], acc => [String.mk acc.reverse]
  | c :: cs, acc =>
      if c = sep then String.mk acc.reverse :: splitCharAux sep cs []
      else splitCharAux sep cs (c :: acc)

/-- `s.split(sep)` for a one-character separator. -/
def jsSplit (sep : Char) (s : String) : List String :=
  splitCharAux sep s.data []

/-- `s.trim()`: strip leading and trailing whitespace. -/
def jsTrim (s : String) : String :=
  String.mk (((s.data.dropWhile (·.isWhitespace)).reverse.dropWhile (·.isWhitespace)).reverse)

/-- `s.toLowerCase()` on the ASCII range, as the repository's inputs are ASCII. -/
def jsToLower (s : String) : String :=
  String.mk (s.data.map Char.toLower)

/-- `needle` occurs at the head of `hay`. -/
def charsStartWith : List Char → List Char → Bool
  | _, [] => true
  | [], _ :: _ => false
  | a :: as, b :: bs => a = b && charsStartWith as bs

/-- `needle` occurs contiguously somewhere in `hay`. -/
def charsContain : List Char → List Char → Bool
  | [], needle => needle.isEmpty
  | h :: hs, needle => charsStartWith (h :: hs) needle || charsContain hs needle

/-- `s.includes(sub)`. -/
def jsIncludes (s sub : String) : Bool :=
  charsContain s.data sub.data

/-! ## `parseFloat` -/

/-- Numeric value of a digit string (most significant first). -/
def digitsToNat (ds : List Char) : Nat :=
  ds.foldl (fun n c => 10 * n + (c.toNat - 48)) 0

/-- Exponent part of a JS number literal: the characters after `e`/`E`.
An absent or malformed exponent contributes `0` (JS stops parsing there). -/
def parseExp (cs : List Char) : Int :=
  let (sign, cs') : Int × List Char :=
    match cs with
    | '+' :: r => (1, r)
    | '-' :: r => (-1, r)
    | _ => (1, cs)
  let ds := cs'.takeWhile (·.isDigit)
  if ds.isEmpty then 0 else sign * (digitsToNat ds : Int)

/-- `parseFloat(s)` as an exact rational: skip leading whitespace, optional
sign, integer digits, optional `.` fraction, optional exponent; the longest
valid numeric prefix is taken and trailing junk ignored; no digit at all
means `NaN`, modelled as `none`.  (The `Infinity` literal, never produced by
this pipeline, is out of scope and maps to `none`.) -/
def parseFloat (s : String) : Option ℚ :=
  let cs := s.data.dropWhile (·.isWhitespace)
  let (sign, cs₁) : ℚ × List Char :=
    match cs with
    | '+' :: r => (1, r)
    | '-' :: r => (-1, r)
    | _ => (1, cs)
  let ip := cs₁.takeWhile (·.isDigit)
  let cs₂ := cs₁.dropWhile (·.isDigit)
  let (fp, cs₃) : List Char × List Char :=
    match cs₂ with
    | '.' :: r => (r.takeWhile (·.isDigit), r.dropWhile (·.isDigit))
    | _ => ([], cs₂)
  if ip.isEmpty && fp.isEmpty then none
  else
    let mant : ℚ := (digitsToNat ip : ℚ) + (digitsToNat fp : ℚ) / ((10 : ℚ) ^ fp.length)
    let e : Int :=
      match cs₃ with
      | c :: r => if c = 'e' ∨ c = 'E' then parseExp r else 0
      | [] => 0
    some (sign * mant * (10 : ℚ) ^ e)

/-! ## `new Date` (ISO date-only branch) -/

/-- Calendar date, the data `new Date` carries that this code consumes. -/
structure Date where
  year : Nat
  month : Nat
  day : Nat
deriving DecidableEq, Repr

def isLeapYear (y : Nat) : Bool :=
  (y % 4 == 0 && y % 100 != 0) || y % 400 == 0

def daysInMonth (y m : Nat) : Nat :=
  if m = 2 then (if isLeapYear y then 29 else 28)
  else if m = 4 ∨ m = 6 ∨ m = 9 ∨ m = 11 then 30
  else 31

/-- `new Date(s)` restricted to the ISO `YYYY-MM-DD` date-only format used
throughout this repository (template, format guide, spec scenarios):
a calendar-valid ISO string yields its date, anything else yields `none`
(`isNaN(date.getTime())` true).  The engine-specific fallback formats of
full JS date parsing are outside the pipeline's input space. -/
def jsParseDate (s : String) : Option Date :=
  match jsSplit '-' s with
  | [ys, ms, ds] =>
      if ys.data.all (·.isDigit) ∧ ms.data.all (·.isDigit) ∧ ds.data.all (·.isDigit)
          ∧ ys.data.length = 4 ∧ ms.data.length = 2 ∧ ds.data.length = 2 then
        let y := digitsToNat ys.data
        let m := digitsToNat ms.data
        let d := digitsToNat ds.data
        if 1 ≤ m ∧ m ≤ 12 ∧ 1 ≤ d ∧ d ≤ daysInMonth y m then some ⟨y, m, d⟩
        else none
      else none
  | _ => none

/-- `a <= b` on dates, the order `new Date(...) >= monthStart` uses. -/
def dateLe (a b : Date) : Bool :=
  if a.year ≠ b.year then a.year < b.year
  else if a.month ≠ b.month then a.month < b.month
  else a.day ≤ b.day

/-! ## Transactions -/

/-- A transaction as assembled by the CSV route and stored by the storage
layer (`id`/`createdAt` omitted as opaque). `amount` is the stored decimal
string read back through `parseFloat`, modelled directly as `ℚ`. -/
structure Tx where
  description : String
  amount : ℚ
  date : Date
  type : String
  categoryId : Option String
  userId : String
deriving DecidableEq, Repr

/-! ## CSV upload route (`routes.ts` 116-178) -/

/-- `desc.includes('restaurant') || desc.includes('food') || desc.includes('starbucks')`. -/
def foodHit (desc : String) : Bool :=
  jsIncludes desc "restaurant" || jsIncludes desc "food" || jsIncludes desc "starbucks"

/-- `desc.includes('gas') || desc.includes('uber') || desc.includes('transport')`. -/
def transportHit (desc : String) : Bool :=
  jsIncludes desc "gas" || jsIncludes desc "uber" || jsIncludes desc "transport"

/-- `desc.includes('movie') || desc.includes('entertainment') || desc.includes('netflix')`. -/
def entertainmentHit (desc : String) : Bool :=
  jsIncludes desc "movie" || jsIncludes desc "entertainment" || jsIncludes desc "netflix"

/-- `desc.includes('salary')`. -/
def salaryHit (desc : String) : Bool :=
  jsIncludes desc "salary"

/-- The auto-categorization chain of `routes.ts` 144-155: `categoryId`
starts at `"cat-4"` (Shopping) and the if/else-if chain reassigns it; note
the income test `type === 'income' || amount > 0 && desc.includes('salary')`
comes after the three keyword tests. -/
def categorize (description typeStr : String) (amount : ℚ) : String :=
  let desc := jsToLower description
  if foodHit desc then "cat-1"
  else if transportHit desc then "cat-2"
  else if entertainmentHit desc then "cat-3"
  else if typeStr == "income" || (decide (0 < amount) && salaryHit desc) then "cat-5"
  else "cat-4"

/-- Transaction assembly of `routes.ts` 157-164 from the row's parsed date,
trimmed description, parsed amount and lowercased type field:
`amount: Math.abs(amount).toString()`,
`type: type === 'income' || amount > 0 ? 'income' : 'expense'`. -/
def assemble (d : Date) (description : String) (amount : ℚ) (typeStr : String) : Tx :=
  { description := description
    amount := |amount|
    date := d
    type := if typeStr == "income" || decide (0 < amount) then "income" else "expense"
    categoryId := some (categorize description typeStr amount)
    userId := "default-user" }

/-- One iteration of the row loop (`routes.ts` 133-165): split on `','`,
skip rows with fewer than 4 fields, parse date/amount, skip on `NaN`,
otherwise assemble the transaction. -/
def parseRow (line : String) : Option Tx :=
  let values := jsSplit ',' line
  if values.length < 4 then none
  else
    let dateStr := jsTrim (values.getD 0 "")
    let description := jsTrim (values.getD 1 "")
    let amountStr := jsTrim (values.getD 2 "")
    let typeStr := jsToLower (jsTrim (values.getD 3 ""))
    match jsParseDate dateStr, parseFloat amountStr with
    | some d, some a => some (assemble d description a typeStr)
    | _, _ => none

/-- The full JSON body of a successful `POST /api/upload/csv` response
(`routes.ts` 168-172): a message, the saved transactions and their count —
and nothing else. -/
structure UploadResponse where
  message : String
  transactions : List Tx
  count : Nat
deriving DecidableEq, Repr

/-- The upload handler after line-splitting (`routes.ts` 125-172): reject
fewer than two non-blank lines, otherwise run the row loop on every line
after the header.  (The header is split and lowercased by the code at line
129 but its value is never consulted.) -/
def processLines (lines : List String) : Option UploadResponse :=
  if lines.length < 2 then none
  else
    some { message := "CSV uploaded successfully"
           transactions := lines.tail.filterMap parseRow
           count := (lines.tail.filterMap parseRow).length }

/-- `routes.ts` 122-123: split the file on `'\n'` and drop blank lines. -/
def csvLines (content : String) : List String :=
  (jsSplit '\n' content).filter (fun l => jsTrim l ≠ "")

/-- The whole `POST /api/upload/csv` handler on the file's text. -/
def uploadCsv (content : String) : Option UploadResponse :=
  processLines (csvLines content)

/-! ## Storage: partial-merge update (`storage.ts` 182-188) -/

/-- The fields a `PUT /api/transactions/:id` body may carry; the route
(`routes.ts` 88-100) forwards `req.body` unvalidated. -/
structure TxPatch where
  description : Option String := none
  amount : Option ℚ := none
  date : Option Date := none
  type : Option String := none
  categoryId : Option (Option String) := none
  userId : Option String := none

/-- `MemStorage.updateTransaction`: `{ ...transaction, ...updateData }` —
every field present in the patch replaces the stored one, with no
validation. -/
def updateTransaction (t : Tx) (p : TxPatch) : Tx :=
  { description := p.description.getD t.description
    amount := p.amount.getD t.amount
    date := p.date.getD t.date
    type := p.type.getD t.type
    categoryId := p.categoryId.getD t.categoryId
    userId := p.userId.getD t.userId }

/-! ## Analytics summary (`routes.ts` 281-324) -/

structure Budget where
  name : String
  amount : ℚ
  spent : ℚ
deriving DecidableEq, Repr

structure SavingsGoal where
  name : String
  targetAmount : ℚ
  currentAmount : ℚ
deriving DecidableEq, Repr

/-- `Math.round(x)` = `⌊x + 1/2⌋` (round half up, also for negatives). -/
def jsRound (q : ℚ) : Int :=
  ⌊q + 1 / 2⌋

def totalIncome (txs : List Tx) : ℚ :=
  ((txs.filter (fun t => t.type == "income")).map Tx.amount).sum

def totalExpenses (txs : List Tx) : ℚ :=
  ((txs.filter (fun t => t.type == "expense")).map Tx.amount).sum

/-- The JSON body of `GET /api/analytics/summary`. -/
structure SummaryData where
  totalBalance : ℚ
  monthlySpending : ℚ
  savingsProgress : Int
  budgetRemaining : ℚ
deriving DecidableEq, Repr

/-- The summary computation (`routes.ts` 287-320); `monthStart` stands for
`new Date(now.getFullYear(), now.getMonth(), 1)`. -/
def analyticsSummary (txs : List Tx) (budgets : List Budget)
    (goals : List SavingsGoal) (monthStart : Date) : SummaryData :=
  { totalBalance := totalIncome txs - totalExpenses txs
    monthlySpending :=
      ((txs.filter (fun t => t.type == "expense" && dateLe monthStart t.date)).map Tx.amount).sum
    savingsProgress :=
      let target := (goals.map SavingsGoal.targetAmount).sum
      let cur := (goals.map SavingsGoal.currentAmount).sum
      if 0 < target then jsRound (cur / target * 100) else 0
    budgetRemaining :=
      (budgets.map Budget.amount).sum - (budgets.map Budget.spent).sum }

/-! ## Spending by category (`routes.ts` 326-348) -/

structure Category where
  id : String
  name : String
  icon : String
  color : String
  userId : String
deriving DecidableEq, Repr

/-- One element of the `GET /api/analytics/spending-by-category` response. -/
structure CategorySpendingEntry where
  id : String
  name : String
  amount : ℚ
  color : String
deriving DecidableEq, Repr

/-- Expense total attributed to category id `cid`
(`tx.type === 'expense' && tx.categoryId === category.id`). -/
def expenseAmountFor (txs : List Tx) (cid : String) : ℚ :=
  ((txs.filter (fun t => t.type == "expense" && t.categoryId == some cid)).map Tx.amount).sum

/-- The spending-by-category computation: map each of the user's categories
to its expense total, then keep only entries with `amount > 0`. -/
def spendingByCategory (cats : List Category) (txs : List Tx) : List CategorySpendingEntry :=
  ((cats.map (fun c => CategorySpendingEntry.mk c.id c.name (expenseAmountFor txs c.id) c.color)).filter
    (fun e => decide (0 < e.amount)))

/-- The seed category set of `MemStorage.initializeDefaultData`
(`storage.ts` 99-105). -/
def seedCategories : List Category :=
  [⟨"cat-1", "Food & Dining", "utensils", "#3B82F6", "default-user"⟩,
   ⟨"cat-2", "Transportation", "car", "#10B981", "default-user"⟩,
   ⟨"cat-3", "Entertainment", "gamepad", "#F59E0B", "default-user"⟩,
   ⟨"cat-4", "Shopping", "shopping-cart", "#EF4444", "default-user"⟩,
   ⟨"cat-5", "Income", "plus-circle", "#22C55E", "default-user"⟩]

/-! ## Monthly trend (`categories.tsx` 201-222) -/

/-- One bucket of the `monthlyTrends` view. -/
structure TrendBucket where
  income : ℚ
  expenses : ℚ
  month : String
deriving DecidableEq, Repr

/-- Two-digit zero-padded month, as in
`String(date.getMonth() + 1).padStart(2, '0')`. -/
def pad2 (n : Nat) : String :=
  if n < 10 then "0" ++ toString n else toString n

/-- The grouping key `monthKey` = `` `${year}-${month}` ``. -/
def monthKey (d : Date) : String :=
  toString d.year ++ "-" ++ pad2 d.month

def monthShortName (m : Nat) : String :=
  match m with
  | 1 => "Jan" | 2 => "Feb" | 3 => "Mar" | 4 => "Apr"
  | 5 => "May" | 6 => "Jun" | 7 => "Jul" | 8 => "Aug"
  | 9 => "Sep" | 10 => "Oct" | 11 => "Nov" | _ => "Dec"

/-- `date.toLocaleDateString('en-US', { month: 'short', year: 'numeric' })`,
e.g. `"Jan 2024"`. -/
def monthName (d : Date) : String :=
  monthShortName d.month ++ " " ++ toString d.year

/-- Add a transaction's amount to the income or expenses side of a bucket
(`if tx.type === 'income' ... else ...`: every non-income type counts as
expenses). -/
def bucketAdd (b : TrendBucket) (t : Tx) : TrendBucket :=
  if t.type == "income" then { b with income := b.income + t.amount }
  else { b with expenses := b.expenses + t.amount }

/-- Fold one transaction into the keyed bucket list, preserving key
insertion order (JS object property order for string keys). -/
def trendInsert (t : Tx) : List (String × TrendBucket) → List (String × TrendBucket)
  | [] => [(monthKey t.date, bucketAdd ⟨0, 0, monthName t.date⟩ t)]
  | (k, b) :: rest =>
      if k = monthKey t.date then (k, bucketAdd b t) :: rest
      else (k, b) :: trendInsert t rest

/-- Lexicographic (code-point) comparison of the characters of two strings;
`localeCompare` agrees with it on the ASCII `"Mon YYYY"` labels compared
here. -/
def charsLe : List Char → List Char → Bool
  | [], _ => true
  | _ :: _, [] => false
  | a :: as, b :: bs => if a < b then true else if a = b then charsLe as bs else false

def strLe (a b : String) : Bool :=
  charsLe a.data b.data

/-- Stable insertion into a list sorted by `le`. -/
def insertLe (le : TrendBucket → TrendBucket → Bool) (x : TrendBucket) :
    List TrendBucket → List TrendBucket
  | [] => [x]
  | y :: ys => if le x y then x :: y :: ys else y :: insertLe le x ys

/-- Stable sort by `le`, the behavior of `Array.prototype.sort` with a
comparator. -/
def sortLe (le : TrendBucket → TrendBucket → Bool) (l : List TrendBucket) : List TrendBucket :=
  l.foldr (insertLe le) []

/-- The `monthlyTrends` memo (`categories.tsx` 201-222): group the (already
time-range-filtered) transactions by `monthKey`, then sort the bucket values
by `a.month.localeCompare(b.month)` — i.e. by the *formatted label*
`"Mon YYYY"`, not by the chronological key. -/
def monthlyTrends (txs : List Tx) : List TrendBucket :=
  sortLe (fun a b => strLe a.month b.month)
    ((txs.foldl (fun acc t => trendInsert t acc) []).map Prod.snd)

/-! ## Concrete inputs used by the claims -/

/-- The three-row scenario of spec §8.6, byte-identical to the repository's
own downloadable template plus its Amazon row. -/
def scenarioCsv : String :=
  "date,description,amount,type\n2024-01-15,Starbucks Coffee,4.85,expense\n2024-01-15,Salary Deposit,3200.00,income\n2024-01-16,Amazon Purchase,47.99,expense"

/-- The transactions the upload route produces for `scenarioCsv`. -/
def scenarioTransactions : List Tx :=
  ((uploadCsv scenarioCsv).map UploadResponse.transactions).getD []

/-- An orphaned expense: stored with `categoryId = null`, reachable through
the unvalidated direct-create route. -/
def orphanTx : Tx :=
  { description := "Stuff", amount := 5, date := ⟨2024, 1, 15⟩,
    type := "expense", categoryId := none, userId := "default-user" }

/-- An expense carrying the Shopping seed category. -/
def shoppingTx : Tx :=
  { description := "Stuff", amount := 5, date := ⟨2024, 1, 15⟩,
    type := "expense", categoryId := some "cat-4", userId := "default-user" }

/-- A stored transaction with a non-negative amount. -/
def storedTx : Tx :=
  { description := "Coffee", amount := 5, date := ⟨2024, 1, 15⟩,
    type := "expense", categoryId := some "cat-1", userId := "default-user" }

/-- A `PUT /api/transactions/:id` body setting a negative amount. -/
def negPatch : TxPatch :=
  { amount := some (-3) }

/-- An income transaction dated January 2024. -/
def janTx : Tx :=
  { description := "Paycheck", amount := 10, date := ⟨2024, 1, 10⟩,
    type := "income", categoryId := some "cat-5", userId := "default-user" }

/-- An expense transaction dated February 2024. -/
def febTx : Tx :=
  { description := "Groceries", amount := 5, date := ⟨2024, 2, 10⟩,
    type := "expense", categoryId := some "cat-1", userId := "default-user" }

/-- A data row whose second field is quote-wrapped and embeds the comma. -/
def quotedRow : String :=
  "2024-01-15,\"Smith, John\",4.85,expense"

/-- Spec §8.8's alias-header file: header `Transaction Date,Memo,Value` and
one three-field data row. -/
def aliasCsv : String :=
  "Transaction Date,Memo,Value\n2024-01-15,Lunch at cafe,4.85"

/-- A file whose second data row has the unparseable amount `abc`. -/
def badAmountCsv : String :=
  "date,description,amount,type\n2024-01-15,Lunch,4.85,expense\n2024-01-15,Oops,abc,expense"

/-! ## Helper lemmas -/

lemma filterMap_length_of_isSome {α β : Type} (f : α → Option β) :
    ∀ l : List α, (∀ x ∈ l, (f x).isSome = true) → (l.filterMap f).length = l.length := by
  intro l h
  induction l with
  | nil => rfl
  | cons x xs ih =>
      have hx := h x (List.mem_cons_self x xs)
      obtain ⟨b, hb⟩ := Option.isSome_iff_exists.mp hx
      simp [List.filterMap_cons, hb, ih (fun y hy => h y (List.mem_cons_of_mem x hy))]

lemma sum_map_filter_or {α : Type} (f : α → ℚ) (p q : α → Bool) :
    ∀ l : List α, (∀ x, ¬(p x = true ∧ q x = true)) →
      ((l.filter (fun x => p x || q x)).map f).sum
        = ((l.filter p).map f).sum + ((l.filter q).map f).sum := by
  intro l h
  induction l with
  | nil => simp
  | cons x xs ih =>
      cases hp : p x with
      | true =>
          have hq : q x = false := by
            cases hq : q x with
            | true => exact absurd ⟨hp, hq⟩ (h x)
            | false => rfl
          simp [List.filter_cons, hp, hq, ih]
          ring
      | false =>
          cases hq : q x with
          | true =>
              simp [List.filter_cons, hp, hq, ih]
              ring
          | false =>
              simp [List.filter_cons, hp, hq, ih]

lemma expenseAmountFor_nonneg (txs : List Tx) (cid : String)
    (h : ∀ t ∈ txs, 0 ≤ t.amount) : 0 ≤ expenseAmountFor txs cid := by
  apply List.sum_nonneg
  intro x hx
  obtain ⟨t, ht, rfl⟩ := List.mem_map.mp hx
  exact h t (List.mem_of_mem_filter ht)

lemma sum_filter_pos_of_nonneg :
    ∀ l : List ℚ, (∀ x ∈ l, 0 ≤ x) →
      (l.filter (fun x => decide (0 < x))).sum = l.sum := by
  intro l h
  induction l with
  | nil => rfl
  | cons x xs ih =>
      have hx := h x (List.mem_cons_self x xs)
      have ihx := ih (fun y hy => h y (List.mem_cons_of_mem x hy))
      cases hpos : (decide (0 < x) : Bool) with
      | true => simp [List.filter_cons, hpos, ihx]
      | false =>
          have : x = 0 := le_antisymm (not_lt.mp (of_decide_eq_false hpos)) hx
          simp [List.filter_cons, hpos, ihx, this]

lemma sum_expenseAmountFor (txs : List Tx) :
    ∀ ids : List String, ids.Nodup →
      (ids.map (expenseAmountFor txs)).sum
        = ((txs.filter (fun t =>
            t.type == "expense" && ids.any (fun cid => t.categoryId == some cid))).map Tx.amount).sum := by
  intro ids hnodup
  induction ids with
  | nil => simp [List.any_nil, Bool.and_false]
  | cons c rest ih =>
      have hc : c ∉ rest := (List.nodup_cons.mp hnodup).1
      have hrest := ih (List.nodup_cons.mp hnodup).2
      have hcongr :
          txs.filter (fun t =>
              t.type == "expense" && (c :: rest).any (fun cid => t.categoryId == some cid))
            = txs.filter (fun t =>
              (t.type == "expense" && t.categoryId == some c)
                || (t.type == "expense" && rest.any (fun cid => t.categoryId == some cid))) := by
        apply List.filter_congr
        intro t _
        cases t.type == "expense" <;> cases h1 : t.categoryId == some c <;> simp [h1]
      have hdisj : ∀ t : Tx,
          ¬((t.type == "expense" && t.categoryId == some c) = true
            ∧ (t.type == "expense" && rest.any (fun cid => t.categoryId == some cid)) = true) := by
        rintro t ⟨h1, h2⟩
        rw [Bool.and_eq_true] at h1 h2
        have hc1 : t.categoryId = some c := eq_of_beq h1.2
        obtain ⟨cid, hcid, hbeq⟩ := List.any_eq_true.mp h2.2
        have h3 : some c = some cid := hc1.symm.trans (eq_of_beq hbeq)
        have h4 : c = cid := Option.some.inj h3
        exact hc (h4 ▸ hcid)
      calc (((c :: rest).map (expenseAmountFor txs)).sum)
          = expenseAmountFor txs c + (rest.map (expenseAmountFor txs)).sum := by simp
        _ = ((txs.filter (fun t => t.type == "expense" && t.categoryId == some c)).map Tx.amount).sum
              + ((txs.filter (fun t =>
                  t.type == "expense" && rest.any (fun cid => t.categoryId == some cid))).map Tx.amount).sum := by
              rw [hrest]; rfl
        _ = ((txs.filter (fun t =>
              t.type == "expense" && (c :: rest).any (fun cid => t.categoryId == some cid))).map Tx.amount).sum := by
              rw [hcongr, sum_map_filter_or _ _ _ txs hdisj]

lemma map_amount_filter_pos (l : List CategorySpendingEntry) :
    ((l.filter (fun e => decide (0 < e.amount))).map CategorySpendingEntry.amount)
      = (l.map CategorySpendingEntry.amount).filter (fun x => decide (0 < x)) := by
  induction l with
  | nil => rfl
  | cons x xs ih =>
      cases hd : (decide (0 < x.amount) : Bool) with
      | true => simp [List.filter_cons, hd, ih]
      | false => simp [List.filter_cons, hd, ih]

/-! ## Claims

Rational arithmetic is sealed behind `@[irreducible]` in the library; the
evaluations below re-open it locally so that concrete runs of the pipeline
reduce in the kernel. -/

section ClaimTheorems

attribute [local semireducible] Rat.add Rat.sub Rat.mul Rat.inv Rat.ofScientific

/-- C1: the spec (and the repository's own CSV template and format guide)
classifies a typed row as `expense` whenever its type field lacks
income/deposit/credit, but the assembled type is
`type === 'income' || amount > 0 ? 'income' : 'expense'`, so every row with
a positive parsed amount is classified `income` regardless of its type
field; on the spec §8.6 scenario (the template rows) all three transactions
come out `income`, `totalExpenses = 0` (not `52.84`) and
`totalIncome = 3252.84`. -/
theorem typed_rows_with_positive_amount_become_income :
    (∀ (d : Date) (desc : String) (a : ℚ) (ty : String),
        (assemble d desc a ty).type = "income" ↔ (ty = "income" ∨ 0 < a))
    ∧ scenarioTransactions.map Tx.type = ["income", "income", "income"]
    ∧ totalExpenses scenarioTransactions = 0
    ∧ totalExpenses scenarioTransactions ≠ (52.84 : ℚ)
    ∧ totalIncome scenarioTransactions = (3252.84 : ℚ) := by
  refine ⟨?_, by decide, by decide, by decide, by decide⟩
  intro d desc a ty
  show (if (ty == "income" || decide (0 < a)) = true then "income" else "expense") = "income" ↔ _
  split_ifs with h
  · simp only [Bool.or_eq_true, beq_iff_eq, decide_eq_true_eq] at h
    exact iff_of_true rfl h
  · simp only [Bool.or_eq_true, beq_iff_eq, decide_eq_true_eq] at h
    exact iff_of_false (by decide) h

/-- C2 (counterexample): for a two-data-row file whose second row has the
unparseable amount `abc`, the full upload response is exactly a success
message, the one parsed transaction and `count = 1` — it carries no
`errors` list and no `validRows` field at all, so the claimed
"exactly one entry in its errors list" is false. -/
theorem upload_response_reports_no_row_errors :
    uploadCsv badAmountCsv = some ⟨"CSV uploaded successfully",
      [⟨"Lunch", (4.85 : ℚ), ⟨2024, 1, 15⟩, "income", some "cat-4", "default-user"⟩], 1⟩ := by
  decide

/-- C2 (amended): with exactly one data row failing to parse and all others
parsing, the upload succeeds (never aborts), returns the `N − 1`
transactions of the good rows in order, and reports `count = N − 1`; the
bad row is skipped silently, with no error entry anywhere. -/
theorem unparseable_amount_row_silently_skipped (header bad : String) (pre post : List String)
    (hpre : ∀ l ∈ pre, (parseRow l).isSome = true)
    (hpost : ∀ l ∈ post, (parseRow l).isSome = true)
    (hbad : parseRow bad = none) :
    ∃ r, processLines (header :: (pre ++ bad :: post)) = some r
      ∧ r.transactions = pre.filterMap parseRow ++ post.filterMap parseRow
      ∧ r.count = pre.length + post.length := by
  have hlen : ¬ ((header :: (pre ++ bad :: post)).length < 2) := by
    simp only [List.length_cons, List.length_append]
    omega
  have htx : (pre ++ bad :: post).filterMap parseRow
      = pre.filterMap parseRow ++ post.filterMap parseRow := by
    rw [List.filterMap_append, List.filterMap_cons, hbad]
  refine ⟨⟨"CSV uploaded successfully", (pre ++ bad :: post).filterMap parseRow,
      ((pre ++ bad :: post).filterMap parseRow).length⟩, ?_, ?_, ?_⟩
  · simp only [processLines, if_neg hlen]
    rfl
  · exact htx
  · rw [htx, List.length_append, filterMap_length_of_isSome _ pre hpre,
      filterMap_length_of_isSome _ post hpost]

/-- C2 (witness): the amended row-isolation theorem applied to a concrete
three-data-row file whose middle row has amount `abc`. -/
theorem unparseable_amount_row_silently_skipped_witness :
    ∃ r, processLines ("date,description,amount,type" ::
        (["2024-01-15,Lunch,4.85,expense"] ++ "2024-01-15,Oops,abc,expense" ::
          ["2024-01-16,Tea,2.00,expense"])) = some r
      ∧ r.transactions = ["2024-01-15,Lunch,4.85,expense"].filterMap parseRow
          ++ ["2024-01-16,Tea,2.00,expense"].filterMap parseRow
      ∧ r.count = ["2024-01-15,Lunch,4.85,expense"].length
          + ["2024-01-16,Tea,2.00,expense"].length :=
  unparseable_amount_row_silently_skipped "date,description,amount,type"
    "2024-01-15,Oops,abc,expense" ["2024-01-15,Lunch,4.85,expense"]
    ["2024-01-16,Tea,2.00,expense"] (by decide) (by decide) (by decide)

/-- C3 (counterexample): an income row whose description contains
`restaurant` is typed `income` yet receives the Food & Dining id `cat-1`,
not the Income id `cat-5` — the keyword chain runs before the income rule. -/
theorem income_row_with_food_keyword_gets_food_category :
    (parseRow "2024-01-15,Restaurant Refund,100.00,income").map Tx.categoryId
        = some (some "cat-1")
    ∧ (parseRow "2024-01-15,Restaurant Refund,100.00,income").map Tx.type = some "income"
    ∧ (parseRow "2024-01-15,Restaurant Refund,100.00,income").map Tx.categoryId
        ≠ some (some "cat-5") := by
  decide

/-- C3 (amended): a row gets the Income category id `cat-5` iff none of the
food/transport/entertainment keyword groups matches its lowercased
description AND (its type field is `income`, or its raw amount is positive
and the description contains `salary`); income typing alone does not
suffice. -/
theorem income_category_needs_no_keyword_hit :
    ∀ (d : Date) (desc : String) (a : ℚ) (ty : String),
      (assemble d desc a ty).categoryId = some "cat-5"
        ↔ (foodHit (jsToLower desc) = false ∧ transportHit (jsToLower desc) = false
            ∧ entertainmentHit (jsToLower desc) = false
            ∧ (ty = "income" ∨ (0 < a ∧ salaryHit (jsToLower desc) = true))) := by
  intro d desc a ty
  show some (categorize desc ty a) = some "cat-5" ↔ _
  rw [Option.some.injEq]
  unfold categorize
  dsimp only
  split_ifs with h1 h2 h3 h4
  · refine iff_of_false (by decide) ?_
    rintro ⟨hf, -, -, -⟩
    rw [h1] at hf
    simp at hf
  · refine iff_of_false (by decide) ?_
    rintro ⟨-, ht, -, -⟩
    rw [h2] at ht
    simp at ht
  · refine iff_of_false (by decide) ?_
    rintro ⟨-, -, he, -⟩
    rw [h3] at he
    simp at he
  · refine iff_of_true rfl ⟨by simpa using h1, by simpa using h2, by simpa using h3, ?_⟩
    simpa only [Bool.or_eq_true, Bool.and_eq_true, beq_iff_eq, decide_eq_true_eq] using h4
  · refine iff_of_false (by decide) ?_
    rintro ⟨-, -, -, hlast⟩
    apply h4
    simp only [Bool.or_eq_true, Bool.and_eq_true, beq_iff_eq, decide_eq_true_eq]
    exact hlast

/-- C4 (counterexample): the row with quoted field `"Smith, John"` does not
split into the four logical columns with the quotes stripped — the line is
split blindly on every comma. -/
theorem quoted_field_split_at_embedded_delimiter :
    jsSplit ',' quotedRow ≠ ["2024-01-15", "Smith, John", "4.85", "expense"]
    ∧ (jsSplit ',' quotedRow).length = 5 := by
  decide

/-- C4 (amended): there is no quote handling at all: the quoted field is cut
at its embedded comma into the two raw pieces (quotes kept), giving five
fields, and the row is then dropped because its third field ` John"` is not
a parseable amount. -/
theorem quoted_row_misaligned_and_dropped :
    jsSplit ',' quotedRow = ["2024-01-15", "\"Smith", " John\"", "4.85", "expense"]
    ∧ parseRow quotedRow = none := by
  decide

/-- C5 (counterexample): under the header `Transaction Date,Memo,Value` the
three-field data row is not parsed — it is skipped by the
`values.length < 4` guard, and the upload returns zero transactions. -/
theorem alias_header_file_imports_nothing :
    parseRow "2024-01-15,Lunch at cafe,4.85" = none
    ∧ (uploadCsv aliasCsv).map UploadResponse.transactions = some [] := by
  decide

/-- C5 (amended): there is no column resolver: the transactions produced are
identical for any two headers over the same data rows (the header value is
never consulted; columns are fixed at positions 0-3), and the
`Transaction Date,Memo,Value` file of spec §8.8 imports nothing. -/
theorem header_contents_never_consulted :
    (∀ (h₁ h₂ : String) (rows : List String),
        (processLines (h₁ :: rows)).map UploadResponse.transactions
          = (processLines (h₂ :: rows)).map UploadResponse.transactions)
    ∧ (uploadCsv aliasCsv).map UploadResponse.transactions = some [] := by
  refine ⟨?_, by decide⟩
  intro h₁ h₂ rows
  simp only [processLines, List.length_cons, List.tail_cons]

/-- C6 (counterexample): `parseFloat` on `$4.85` and `(4.85)` yields `NaN`
(no leading digit), so neither normalizes to 4.85 — nothing strips currency
symbols or parentheses. -/
theorem currency_symbol_and_parentheses_rejected :
    parseFloat "$4.85" = none ∧ parseFloat "(4.85)" = none := by
  decide

/-- C6 (amended): only the already-plain decimal `4.85` parses (to 4.85);
`$4.85` and `(4.85)` are unparseable and their rows are rejected; the
stored amount of any successfully parsed row is the absolute value of the
parsed number. -/
theorem amount_parser_accepts_plain_decimals_only :
    parseFloat "4.85" = some (4.85 : ℚ)
    ∧ parseFloat "$4.85" = none
    ∧ parseFloat "(4.85)" = none
    ∧ (∀ (d : Date) (desc : String) (a : ℚ) (ty : String), (assemble d desc a ty).amount = |a|) :=
  ⟨by decide, by decide, by decide, fun _ _ _ _ => rfl⟩

/-- C7: the summary's `totalBalance` equals `totalIncome − totalExpenses`
for every transaction set (it is computed exactly that way), and on empty
input every summary metric is zero; the aggregator is a total function, so
no input can make it fail. -/
theorem summary_balance_identity :
    (∀ (txs : List Tx) (budgets : List Budget) (goals : List SavingsGoal) (ms : Date),
        (analyticsSummary txs budgets goals ms).totalBalance
          = totalIncome txs - totalExpenses txs)
    ∧ analyticsSummary [] [] [] ⟨2024, 1, 1⟩ = ⟨0, 0, 0, 0⟩ :=
  ⟨fun _ _ _ _ => rfl, by decide⟩

/-- C8 (counterexample): an expense whose `categoryId` is null is counted in
no category, so the emitted per-category amounts sum to 0 while the expense
total is 5 — the claimed equality with the sum of all expense amounts
fails. -/
theorem null_category_expense_missing_from_breakdown :
    ((spendingByCategory seedCategories [orphanTx]).map CategorySpendingEntry.amount).sum = 0
    ∧ totalExpenses [orphanTx] = 5
    ∧ ((spendingByCategory seedCategories [orphanTx]).map CategorySpendingEntry.amount).sum
        ≠ totalExpenses [orphanTx] := by
  decide

/-- C8 (amended): every emitted entry has a positive amount, and — for
pairwise-distinct category ids and non-negative stored amounts — the
emitted amounts sum to the total of exactly those expenses whose
`categoryId` matches one of the user's categories; expenses with null or
unknown `categoryId` are omitted, not defaulted to Shopping. -/
theorem breakdown_total_counts_matched_expenses (cats : List Category) (txs : List Tx)
    (hnodup : (cats.map Category.id).Nodup)
    (hpos : ∀ t ∈ txs, 0 ≤ t.amount) :
    (∀ e ∈ spendingByCategory cats txs, 0 < e.amount)
    ∧ ((spendingByCategory cats txs).map CategorySpendingEntry.amount).sum
        = ((txs.filter (fun t => t.type == "expense"
            && (cats.map Category.id).any (fun cid => t.categoryId == some cid))).map Tx.amount).sum := by
  constructor
  · intro e he
    unfold spendingByCategory at he
    exact of_decide_eq_true (List.mem_filter.mp he).2
  · have hmem : ∀ x ∈ ((cats.map (fun c =>
        CategorySpendingEntry.mk c.id c.name (expenseAmountFor txs c.id) c.color)).map
          CategorySpendingEntry.amount), 0 ≤ x := by
      intro x hx
      obtain ⟨e, he, rfl⟩ := List.mem_map.mp hx
      obtain ⟨c, _, rfl⟩ := List.mem_map.mp he
      exact expenseAmountFor_nonneg txs c.id hpos
    unfold spendingByCategory
    rw [map_amount_filter_pos, sum_filter_pos_of_nonneg _ hmem, List.map_map]
    have hsum := sum_expenseAmountFor txs (cats.map Category.id) hnodup
    rw [List.map_map] at hsum
    exact hsum

/-- C8 (witness): the amended breakdown theorem applied to the seed
categories and one Shopping-tagged expense of amount 5. -/
theorem breakdown_total_counts_matched_expenses_witness :
    (∀ e ∈ spendingByCategory seedCategories [shoppingTx], 0 < e.amount)
    ∧ ((spendingByCategory seedCategories [shoppingTx]).map CategorySpendingEntry.amount).sum
        = (([shoppingTx].filter (fun t => t.type == "expense"
            && (seedCategories.map Category.id).any (fun cid => t.categoryId == some cid))).map Tx.amount).sum :=
  breakdown_total_counts_matched_expenses seedCategories [shoppingTx] (by decide) (by decide)

/-- C9 (counterexample): the partial-merge update applies an `amount := -3`
patch verbatim to a stored transaction, leaving a stored amount of −3 — the
`amount ≥ 0` invariant is not preserved by updates. -/
theorem partial_update_accepts_negative_amount :
    (updateTransaction storedTx negPatch).amount = -3
    ∧ ¬ (0 ≤ (updateTransaction storedTx negPatch).amount) := by
  decide

/-- C9 (amended): the CSV route itself always stores `Math.abs` of the
parsed amount, so CSV-ingested transactions are non-negative at creation,
but the update path performs no validation and can drive a stored amount
negative. -/
theorem csv_amounts_nonneg_but_update_unchecked :
    (∀ (d : Date) (desc : String) (a : ℚ) (ty : String), 0 ≤ (assemble d desc a ty).amount)
    ∧ (updateTransaction storedTx negPatch).amount < 0 :=
  ⟨fun _ _ a _ => abs_nonneg a, by decide⟩

/-- C10: the buckets are keyed by the chronological `YYYY-MM` key but sorted
with `a.month.localeCompare(b.month)` on the display label `Mon YYYY`: a
January-2024 income and a February-2024 expense come back as
`["Feb 2024", "Jan 2024"]` — alphabetical by month name, not
chronological. -/
theorem monthly_trend_sorted_by_label_not_chronology :
    monthlyTrends [janTx, febTx]
        = [⟨0, 5, "Feb 2024"⟩, ⟨10, 0, "Jan 2024"⟩]
    ∧ monthlyTrends [janTx, febTx]
        ≠ [⟨10, 0, "Jan 2024"⟩, ⟨0, 5, "Feb 2024"⟩] := by
  decide

end ClaimTheorems
